import Mathlib

/-!
Verification of the college-recommendation pipeline
(`src/services/college_recommendation_service.py`, `verification_service.py`,
`rag_pipeline.py`, `llm_service.py`, `models/college.py`).

Modelling conventions:
* Python floats are modelled as `ℚ`; Python ints as `Int`.
* `datetime` values are modelled as timestamps in seconds (`ℚ`);
  `(a - b).total_seconds()` becomes rational subtraction.
* Python exceptions are modelled with `Except String`; the error string names
  the exception class raised by the source.
* Python dicts of weights are modelled as association lists
  (`List (String × ℚ)`); a Python dict has no duplicate keys, and all concrete
  inputs used below are duplicate-free.
* The vector store / similarity search is external: the list of retrieved
  documents is a parameter of `getRecommendations`, exactly the value
  `rag_pipeline.search_colleges` would return.
* The LLM backend is the demo-mode `MockLLM` (chosen when no API key is
  configured), whose response is a constant string; `generateRecommendations`
  is therefore the constant result of parsing that response with the JSON
  branch of `CollegeRecommendationLLM.generate_recommendations`.
* Decimal renderings of numbers inside generated *strings* (Python `str`,
  `:,` and `.2f` formats) are reproduced by helper functions that are exact on
  the terminating decimals appearing in this repository.
-/

/-- Model of `models/college.py` `CollegeProgram` (streams are carried as their
string `.value`). -/
structure CollegeProgram where
  program_name : String
  stream : String
  duration_years : Int
  fees_annual : Int
  seats_total : Int
  seats_general : Int
  seats_reserved : Int
  eligibility_criteria : String
  entrance_exam : Option String
  cutoff_percentage : Option ℚ
  deriving Repr, DecidableEq

/-- Model of `models/college.py` `PlacementStats`. -/
structure PlacementStats where
  year : Int
  total_students : Int
  placed_students : Int
  placement_percentage : ℚ
  average_salary : ℚ
  highest_salary : ℚ
  top_recruiters : List String
  job_roles : List String
  deriving Repr, DecidableEq

/-- Model of `models/college.py` `MentorRating` (the review date is kept as its
ISO string, it is never computed with). -/
structure MentorRating where
  mentor_id : String
  mentor_name : String
  rating : ℚ
  review_text : String
  review_date : String
  verified : Bool
  categories : List String
  deriving Repr, DecidableEq

/-- Model of the `infrastructure` dict of a college: only the keys the code
reads, each optional because `infrastructure` defaults to `{}`. -/
structure Infrastructure where
  labs : Option Int
  library_books : Option Int
  hostel_capacity : Option Int
  sports_facilities : Option (List String)
  wifi_campus : Option Bool
  deriving Repr, DecidableEq

/-- Model of the `faculty_info` dict of a college: only the keys the code
reads. -/
structure FacultyInfo where
  total_faculty : Option Int
  phd_faculty : Option Int
  student_faculty_ratio : Option ℚ
  deriving Repr, DecidableEq

/-- Model of the `contact_info` dict of a college. -/
structure ContactInfo where
  phone : Option String
  email : Option String
  deriving Repr, DecidableEq

/-- Model of `models/college.py` `College` (`college_type` carried as its
string `.value`, `last_updated` as its ISO string). -/
structure College where
  college_id : String
  name : String
  college_type : String
  location : String
  district : String
  state : String
  established_year : Int
  accreditation : List String
  programs : List CollegeProgram
  placement_stats : List PlacementStats
  mentor_ratings : List MentorRating
  infrastructure : Infrastructure
  faculty_info : FacultyInfo
  official_website : Option String
  contact_info : ContactInfo
  last_updated : String
  source_links : List String
  deriving Repr, DecidableEq

/-- Model of `models/college.py` `RecommendationScore`. -/
structure RecommendationScore where
  official_quality : ℚ
  mentor_trust : ℚ
  relevance : ℚ
  proximity : ℚ
  composite_score : ℚ
  confidence : ℚ
  deriving Repr, DecidableEq

/-- Model of `models/college.py` `CollegeRecommendation`. -/
structure CollegeRecommendation where
  rank : Int
  college : College
  score : RecommendationScore
  rationale : String
  evidence_citations : List String
  source_links : List String
  verification_status : String
  deriving Repr, DecidableEq

/-- Model of `models/college.py` `StudentProfile` (preferred streams carried as
string values). -/
structure StudentProfile where
  age : Int
  board : String
  marks_percentage : ℚ
  preferred_streams : List String
  budget_range : Int × Int
  preferred_language : String
  max_distance_km : Int
  location : Option String
  interests : List String
  career_goals : List String
  deriving Repr, DecidableEq

/-- Model of `models/college.py` `RecommendationRequest`. -/
structure RecommendationRequest where
  student_profile : StudentProfile
  preferences : List (String × ℚ)
  max_recommendations : Nat
  include_verification : Bool
  deriving Repr, DecidableEq

/-- Model of `models/college.py` `VerificationResult`. -/
structure VerificationResult where
  claim : String
  verified : Bool
  confidence : ℚ
  source : String
  verification_date : ℚ
  notes : Option String
  deriving Repr, DecidableEq

/-- Pydantic field validation of `StudentProfile` and `RecommendationRequest`
(`age` in [16,30], `marks_percentage` in [0,100], `max_recommendations` in
[1,10]; the `preferences` dict is unconstrained in the model). -/
def requestValid (req : RecommendationRequest) : Bool :=
  decide (16 ≤ req.student_profile.age) && decide (req.student_profile.age ≤ 30) &&
  decide (0 ≤ req.student_profile.marks_percentage) &&
  decide (req.student_profile.marks_percentage ≤ 100) &&
  decide (1 ≤ req.max_recommendations) && decide (req.max_recommendations ≤ 10)

/-! ### ScoringEngine: `CollegeRecommendationService._apply_preferences` -/

/-- Default factor weights (`_apply_preferences`, lines 131-136). -/
def defaultWeights : List (String × ℚ) :=
  [("official_quality", 3/10), ("mentor_trust", 1/5),
   ("relevance", 3/10), ("proximity", 1/5)]

/-- Dict lookup on an association list (Python dicts have unique keys, so the
first match is the binding). -/
def dictGet (d : List (String × ℚ)) (k : String) : Option ℚ :=
  (d.find? (fun kv => kv.1 == k)).map (fun kv => kv.2)

/-- Model of `weights = {**default_weights, **preferences}`: default keys in
order with user overrides applied, then preference keys that are not default
keys, in order. -/
def mergeWeights (preferences : List (String × ℚ)) : List (String × ℚ) :=
  (defaultWeights.map (fun kv => (kv.1, (dictGet preferences kv.1).getD kv.2)))
    ++ preferences.filter (fun kv => dictGet defaultWeights kv.1 == none)

/-- Model of `total_weight = sum(weights.values())`. -/
def totalWeight (preferences : List (String × ℚ)) : ℚ :=
  ((mergeWeights preferences).map (fun kv => kv.2)).sum

/-- Normalized weight of one factor: `weights[k] / total_weight`
(`normalized_weights` dict comprehension, line 143). -/
def normalizedWeight (preferences : List (String × ℚ)) (k : String) : ℚ :=
  ((dictGet (mergeWeights preferences) k).getD 0) / totalWeight preferences

/-- Recomputed composite of one recommendation (`_apply_preferences`,
lines 146-154). -/
def rescoreRecommendation (preferences : List (String × ℚ))
    (r : CollegeRecommendation) : CollegeRecommendation :=
  { r with score := { r.score with composite_score :=
      r.score.official_quality * normalizedWeight preferences "official_quality" +
      r.score.mentor_trust * normalizedWeight preferences "mentor_trust" +
      r.score.relevance * normalizedWeight preferences "relevance" +
      r.score.proximity * normalizedWeight preferences "proximity" } }

/-- Ordering used by `recommendations.sort(key=lambda x:
x.score.composite_score, reverse=True)`: `a` may precede `b` iff
`b.composite ≤ a.composite`.  Python's sort is stable, which is exactly
`List.insertionSort` with this relation. -/
def sortLE (a b : CollegeRecommendation) : Prop :=
  b.score.composite_score ≤ a.score.composite_score

instance : DecidableRel sortLE := fun a b =>
  inferInstanceAs (Decidable (b.score.composite_score ≤ a.score.composite_score))

/-- Model of the stable descending sort (`_apply_preferences`, line 157). -/
def pySortDesc (l : List CollegeRecommendation) : List CollegeRecommendation :=
  l.insertionSort sortLE

/-- Model of the rank-reassignment loop `for i, recommendation in
enumerate(recommendations, 1): recommendation.rank = i` (lines 160-161). -/
def assignRanksFrom (k : Nat) : List CollegeRecommendation → List CollegeRecommendation
  | [] => []
  | r :: rs => { r with rank := (k : Int) } :: assignRanksFrom (k + 1) rs

/-- Model of `CollegeRecommendationService._apply_preferences` (lines 125-163).
When the merged weight vector sums to 0, the dict comprehension
`{k: v/total_weight ...}` raises `ZeroDivisionError` in Python; this is the
`Except.error` branch. -/
def applyPreferences (recommendations : List CollegeRecommendation)
    (preferences : List (String × ℚ)) : Except String (List CollegeRecommendation) :=
  if totalWeight preferences = 0 then
    .error "ZeroDivisionError: float division by zero"
  else
    .ok (assignRanksFrom 1 (pySortDesc (recommendations.map (rescoreRecommendation preferences))))

/-! ### Formatting helpers used inside generated strings -/

/-- Insert thousands separators into a reversed digit list (`i` counts digits
already emitted). -/
def commaGroupAux : Nat → List Char → List Char
  | _, [] => []
  | i, c :: cs =>
    if i % 3 == 0 && i ≠ 0 then ',' :: c :: commaGroupAux (i + 1) cs
    else c :: commaGroupAux (i + 1) cs

/-- Model of Python's `:,` format on an int (digit grouping by thousands). -/
def commaFmt (n : Int) : String :=
  (if n < 0 then "-" else "") ++
    String.mk ((commaGroupAux 0 (toString n.natAbs).data.reverse).reverse)

/-- Smallest `k ≤ 10` with `den ∣ 10^k`, when one exists. -/
def pow10Exp (den : Nat) : Option Nat :=
  (List.range 11).find? (fun k => 10 ^ k % den == 0)

/-- Model of Python `str(float)` for the terminating decimals used in this
repository (an integral float renders as `n.0`); non-terminating rationals,
which never arise from the repository data, fall back to a fraction. -/
def fmtQ (q : ℚ) : String :=
  match pow10Exp q.den with
  | some 0 => toString q.num ++ ".0"
  | some k =>
    let scaled := (q.num.natAbs * ((10 ^ k) / q.den))
    let s := toString scaled
    let s := if s.length ≤ k then String.mk (List.replicate (k + 1 - s.length) '0') ++ s else s
    (if q.num < 0 then "-" else "") ++ s.take (s.length - k) ++ "." ++ s.drop (s.length - k)
  | none => toString q.num ++ "/" ++ toString q.den

/-- Model of Python's `:,` format on a float (grouping only the integer part);
used on the nonnegative salary figures. -/
def commaFmtQ (q : ℚ) : String :=
  commaFmt ⌊q⌋ ++ "." ++ (((fmtQ q).splitOn ".").getLastD "0")

/-- Model of Python's fixed-point format `.{k}f` (round half up; the
confidences and ratings formatted in this repository have no half-way
digits, where CPython would round half to even). -/
def fmtFixed (k : Nat) (q : ℚ) : String :=
  let c : Int := ⌊q * 10 ^ k + 1/2⌋
  let s := toString c.natAbs
  let s := if s.length ≤ k then String.mk (List.replicate (k + 1 - s.length) '0') ++ s else s
  (if c < 0 then "-" else "") ++ s.take (s.length - k) ++ "." ++ s.drop (s.length - k)

/-- Model of Python `str(bool)`. -/
def pyBoolStr (b : Bool) : String := if b then "True" else "False"

/-- Rendering of `dict.get(key, 'N/A')` for an int-valued key. -/
def optIntStr : Option Int → String
  | some n => toString n
  | none => "N/A"

/-- Rendering of `dict.get(key, 'N/A')` for a float-valued key. -/
def optQStr : Option ℚ → String
  | some x => fmtQ x
  | none => "N/A"

/-- Rendering of `dict.get(key, 'N/A')` for a string-valued key. -/
def optStrStr : Option String → String
  | some s => s
  | none => "N/A"

/-- Model of Python `x or d` on an optional string (`None` and the empty
string are falsy). -/
def pyOrStr (o : Option String) (d : String) : String :=
  match o with
  | some s => if s == "" then d else s
  | none => d

/-- Rendering of `{program.cutoff_percentage or 'Not available'}` (a cutoff of
`0.0` is falsy in Python). -/
def cutoffStr : Option ℚ → String
  | some c => if c = 0 then "Not available" else fmtQ c
  | none => "Not available"

/-! ### DocumentIndexer: `CollegeRAGPipeline.create_college_documents`
(rag_pipeline.py lines 74-170).  The generated text reproduces the field
order and labels of the source f-string; indentation whitespace is
abstracted to single newlines. -/

/-- Metadata record built at rag_pipeline.py lines 144-162. -/
structure DocMetadata where
  college_id : String
  college_name : String
  college_type : String
  location : String
  district : String
  state : String
  streams : List String
  established_year : Int
  accreditation : List String
  avg_rating : ℚ
  placement_percentage : ℚ
  avg_salary : ℚ
  min_fees : Int
  max_fees : Int
  source : String
  last_updated : String
  source_links : List String
  deriving Repr, DecidableEq

/-- Model of a LangChain `Document` as built by the pipeline. -/
structure Document where
  page_content : String
  metadata : DocMetadata
  deriving Repr, DecidableEq

/-- Header block of the college document (lines 80-88). -/
def headerSection (c : College) : String :=
  "College: " ++ c.name ++
  "\nType: " ++ c.college_type ++
  "\nLocation: " ++ c.location ++ ", " ++ c.district ++ ", " ++ c.state ++
  "\nEstablished: " ++ toString c.established_year ++
  "\nAccreditation: " ++ String.intercalate ", " c.accreditation ++
  "\n\nPrograms:\n"

/-- One program entry of the document text (lines 90-99). -/
def programEntry (p : CollegeProgram) : String :=
  "\n- " ++ p.program_name ++ " (" ++ p.stream ++ ")" ++
  "\n  Duration: " ++ toString p.duration_years ++ " years" ++
  "\n  Annual Fees: ₹" ++ commaFmt p.fees_annual ++
  "\n  Total Seats: " ++ toString p.seats_total ++
  "\n  Eligibility: " ++ p.eligibility_criteria ++
  "\n  Entrance Exam: " ++ pyOrStr p.entrance_exam ("Not specified") ++
  "\n  Cutoff: " ++ cutoffStr p.cutoff_percentage ++ "%\n"

/-- Programs block: one entry per program, nothing for a college with no
programs. -/
def programsSection (c : College) : String :=
  String.join (c.programs.map programEntry)

/-- Placement block (lines 101-113), emitted only when `placement_stats` is
nonempty, using the last (most recent) entry. -/
def placementSection (c : College) : String :=
  match c.placement_stats.getLast? with
  | none => ""
  | some latest =>
    "\n\nPlacement Statistics (" ++ toString latest.year ++ "):" ++
    "\n- Total Students: " ++ toString latest.total_students ++
    "\n- Placed Students: " ++ toString latest.placed_students ++
    "\n- Placement Percentage: " ++ fmtQ latest.placement_percentage ++ "%" ++
    "\n- Average Salary: ₹" ++ commaFmtQ latest.average_salary ++
    "\n- Highest Salary: ₹" ++ commaFmtQ latest.highest_salary ++
    "\n- Top Recruiters: " ++ String.intercalate ", " latest.top_recruiters ++
    "\n- Job Roles: " ++ String.intercalate ", " latest.job_roles ++ "\n"

/-- Average mentor rating `sum(r.rating ...) / len(...)` (line 116). -/
def avgMentorRating (c : College) : ℚ :=
  ((c.mentor_ratings.map (fun r => r.rating)).sum) / (c.mentor_ratings.length : ℚ)

/-- Mentor-ratings block (lines 115-123), emitted only when `mentor_ratings`
is nonempty; includes the latest-review line. -/
def mentorSection (c : College) : String :=
  match c.mentor_ratings.getLast? with
  | none => ""
  | some lastRating =>
    "\n\nMentor Ratings:" ++
    "\n- Average Rating: " ++ fmtFixed 1 (avgMentorRating c) ++ "/5.0" ++
    "\n- Total Reviews: " ++ toString c.mentor_ratings.length ++
    "\n- Latest Review: " ++ lastRating.review_text ++ "\n"

/-- Infrastructure block (lines 125-132).  The f-string formats
`college.infrastructure.get('library_books', 'N/A')` with `:,`; when the key
is missing the fallback is the *string* `'N/A'`, and formatting a `str` with
a thousands separator raises `ValueError` in Python. -/
def infraSection (c : College) : Except String String :=
  match c.infrastructure.library_books with
  | none => .error "ValueError: Cannot specify comma with s"
  | some books => .ok
      ("\n\nInfrastructure:" ++
       "\n- Labs: " ++ optIntStr c.infrastructure.labs ++
       "\n- Library Books: " ++ commaFmt books ++
       "\n- Hostel Capacity: " ++ optIntStr c.infrastructure.hostel_capacity ++
       "\n- Sports Facilities: " ++
         String.intercalate ", " (c.infrastructure.sports_facilities.getD []) ++
       "\n- WiFi Campus: " ++
         (match c.infrastructure.wifi_campus with
          | some b => pyBoolStr b
          | none => "N/A") ++ "\n")

/-- Faculty block (lines 134-137). -/
def facultySection (c : College) : String :=
  "\nFaculty:" ++
  "\n- Total Faculty: " ++ optIntStr c.faculty_info.total_faculty ++
  "\n- PhD Faculty: " ++ optIntStr c.faculty_info.phd_faculty ++
  "\n- Student-Faculty Ratio: " ++ optQStr c.faculty_info.student_faculty_ratio ++ "\n"

/-- Contact block (lines 139-141). -/
def contactSection (c : College) : String :=
  "\nContact: " ++ optStrStr c.contact_info.phone ++ " | " ++
    optStrStr c.contact_info.email ++
  "\nWebsite: " ++ pyOrStr c.official_website ("N/A") ++ "\n"

/-- Metadata construction (lines 144-162): fee bounds default to 0 for a
college with no programs, the average rating to 0.0 with no mentor ratings,
placement figures to 0.0 with no placement stats. -/
def metadataOf (c : College) : DocMetadata where
  college_id := c.college_id
  college_name := c.name
  college_type := c.college_type
  location := c.location
  district := c.district
  state := c.state
  streams := c.programs.map (fun p => p.stream)
  established_year := c.established_year
  accreditation := c.accreditation
  avg_rating := match c.mentor_ratings with
    | [] => 0
    | _ => avgMentorRating c
  placement_percentage := match c.placement_stats.getLast? with
    | none => 0
    | some s => s.placement_percentage
  avg_salary := match c.placement_stats.getLast? with
    | none => 0
    | some s => s.average_salary
  min_fees := match c.programs.map (fun p => p.fees_annual) with
    | [] => 0
    | f :: fs => fs.foldl min f
  max_fees := match c.programs.map (fun p => p.fees_annual) with
    | [] => 0
    | f :: fs => fs.foldl max f
  source := "college_database"
  last_updated := c.last_updated
  source_links := c.source_links

/-- Model of one iteration of `create_college_documents`: build the document
text and metadata for a single college; the only failing interpolation is the
infrastructure block. -/
def createDocument (c : College) : Except String Document :=
  match infraSection c with
  | .error e => .error e
  | .ok infra => .ok
      { page_content := headerSection c ++ programsSection c ++ placementSection c ++
          mentorSection c ++ infra ++ facultySection c ++ contactSection c
        metadata := metadataOf c }

/-- Model of `CollegeRAGPipeline.create_college_documents`: the Python loop
raises at the first college whose interpolation fails. -/
def createCollegeDocuments (colleges : List College) : Except String (List Document) :=
  colleges.mapM createDocument

/-! ### VerificationEngine: `CollegeVerificationService` (verification_service.py) -/

/-- Whether `pat` occurs at the head of `l`. -/
def listHasLead : List Char → List Char → Bool
  | [], _ => true
  | _ :: _, [] => false
  | p :: ps, c :: cs => p == c && listHasLead ps cs

/-- Whether `pat` occurs somewhere in `l` (model of Python `pat in s` on
strings). -/
def listHasSub (pat : List Char) : List Char → Bool
  | [] => listHasLead pat []
  | c :: cs => listHasLead pat (c :: cs) || listHasSub pat cs

/-- Model of the Python substring test `needle in hay`. -/
def strContains (hay needle : String) : Bool :=
  listHasSub needle.data hay.data

/-- Take the leading run of ASCII decimal digits. -/
def digitSpan : List Char → List Char × List Char
  | [] => ([], [])
  | c :: cs =>
    if c.isDigit then
      let (d, rest) := digitSpan cs
      (c :: d, rest)
    else ([], c :: cs)

/-- Numeric value of a digit run. -/
def digitsToNat (l : List Char) : Nat :=
  l.foldl (fun acc c => 10 * acc + (c.toNat - 48)) 0

/-- Try the regex `(\d+(?:\.\d+)?)%` at the head of `l`; on success return
(integer part, fractional digits value, fractional digit count).  For this
regex greedy matching never needs backtracking: a shorter digit run is always
followed by another digit, which matches neither `.` nor `%`. -/
def pctMatchAt (l : List Char) : Option (Nat × Nat × Nat) :=
  let (d, rest) := digitSpan l
  if d.isEmpty then none
  else
    match rest with
    | '.' :: r2 =>
      let (d2, r3) := digitSpan r2
      if d2.isEmpty then none
      else
        match r3 with
        | '%' :: _ => some (digitsToNat d, digitsToNat d2, d2.length)
        | _ => none
    | '%' :: _ => some (digitsToNat d, 0, 0)
    | _ => none

/-- Model of `re.search(r"(\d+(?:\.\d+)?)%", claim)`: leftmost match wins. -/
def pctSearch : List Char → Option (Nat × Nat × Nat)
  | [] => none
  | c :: cs =>
    match pctMatchAt (c :: cs) with
    | some r => some r
    | none => pctSearch cs

/-- Percentage extracted from a placement claim, as `float(match.group(1))`
(verification_service.py lines 159-162). -/
def extractPercentage (claim : String) : Option ℚ :=
  (pctSearch claim.data).map (fun t => (t.1 : ℚ) + (t.2.1 : ℚ) / 10 ^ t.2.2)

/-- Lazy-group scan for the regex `Offers (.+?) with (\d+) seats`: after the
literal `Offers `, extend the (nonempty, newline-free) name one character at a
time and at each length test for ` with ` + digits + ` seats`. -/
def progScan : List Char → List Char → Option (List Char × Nat)
  | [], _ => none
  | c :: cs, acc =>
    if c == '\n' then none
    else
      let acc2 := acc ++ [c]
      if listHasLead (" with ").data cs then
        let afterWith := cs.drop 6
        let (d, r) := digitSpan afterWith
        if !d.isEmpty && listHasLead (" seats").data r then
          some (acc2, digitsToNat d)
        else progScan cs acc2
      else progScan cs acc2

/-- One starting position of `re.search(r"Offers (.+?) with (\d+) seats", claim)`. -/
def progMatchAt (l : List Char) : Option (List Char × Nat) :=
  if listHasLead ("Offers ").data l then progScan (l.drop 7) [] else none

/-- Leftmost match of the program-claim regex. -/
def progSearch : List Char → Option (List Char × Nat)
  | [] => none
  | c :: cs =>
    match progMatchAt (c :: cs) with
    | some r => some r
    | none => progSearch cs

/-- Program name and claimed seat count extracted from a program claim
(verification_service.py lines 263-267). -/
def extractProgram (claim : String) : Option (String × Nat) :=
  (progSearch claim.data).map (fun t => (String.mk t.1, t.2))

/-- Entry of the simulated NIRF table (`_fetch_nirf_data`, lines 379-401);
every entry carries a `placement` key. -/
structure NirfEntry where
  ranking : Int
  placement : ℚ
  accreditation : List String
  deriving Repr, DecidableEq

/-- Simulated NIRF reference table. -/
def fetchNirfData (college_name : String) : Option NirfEntry :=
  if college_name == "Indian Institute of Technology Delhi" then
    some { ranking := 2, placement := 983/10, accreditation := ["NAAC A++", "NBA"] }
  else if college_name == "University of Delhi" then
    some { ranking := 15, placement := 84, accreditation := ["NAAC A++"] }
  else if college_name == "Indian Institute of Science Bangalore" then
    some { ranking := 1, placement := 95, accreditation := ["NAAC A++", "NBA"] }
  else none

/-- Entry of the simulated UGC table (`_fetch_ugc_data`, lines 403-421); every
entry carries an `accreditation` key and no `programs` key. -/
structure UgcEntry where
  accreditation : List String
  status : String
  deriving Repr, DecidableEq

/-- Simulated UGC reference table. -/
def fetchUgcData (college_name : String) : Option UgcEntry :=
  if college_name == "Indian Institute of Technology Delhi" then
    some { accreditation := ["NAAC A++"], status := "recognized" }
  else if college_name == "University of Delhi" then
    some { accreditation := ["NAAC A++"], status := "recognized" }
  else if college_name == "Indian Institute of Science Bangalore" then
    some { accreditation := ["NAAC A++"], status := "recognized" }
  else none

/-- Entry of the simulated AICTE table (`_fetch_aicte_data`, lines 423-449);
programs are (name, seats) pairs. -/
structure AicteEntry where
  accreditation : List String
  programs : List (String × Int)
  deriving Repr, DecidableEq

/-- Simulated AICTE reference table. -/
def fetchAicteData (college_name : String) : Option AicteEntry :=
  if college_name == "Indian Institute of Technology Delhi" then
    some { accreditation := ["NBA"],
           programs := [("Computer Science", 120), ("Electrical Engineering", 100)] }
  else if college_name == "University of Delhi" then
    some { accreditation := [],
           programs := [("Computer Science", 200), ("Commerce", 300)] }
  else if college_name == "Indian Institute of Science Bangalore" then
    some { accreditation := ["NBA"], programs := [("Research", 80)] }
  else none

/-- Model of `_fetch_program_data` (lines 451-463): combine AICTE and UGC
data; UGC entries have no `programs` key, so `.get("programs", [])` is `[]`. -/
def fetchProgramData (college_name : String) : Option (List (String × Int)) :=
  match fetchAicteData college_name, fetchUgcData college_name with
  | none, none => none
  | a, _ => some ((a.map (fun e => e.programs)).getD [])

/-- The `Placement data not found` result of `_verify_placement_claim`
(lines 176-183), also returned on a tolerance miss. -/
def placementNotFound (now : ℚ) (claim : String) : VerificationResult :=
  { claim := claim, verified := false, confidence := 3/10, source := "NIRF",
    verification_date := now,
    notes := some "Placement data not found in NIRF records" }

/-- Model of `_verify_placement_claim` (lines 150-193).  The body raises no
exception on the simulated tables, so the `except` branch (confidence 0.0,
source `verification_error`) is unreachable in the model. -/
def verifyPlacementClaim (now : ℚ) (claim college_name : String) : VerificationResult :=
  match fetchNirfData college_name with
  | none => placementNotFound now claim
  | some nirf =>
    match extractPercentage claim with
    | none => placementNotFound now claim
    | some claimed =>
      if |claimed - nirf.placement| ≤ 5 then
        { claim := claim, verified := true, confidence := 9/10, source := "NIRF",
          verification_date := now,
          notes := some ("Verified against NIRF data: " ++ fmtQ nirf.placement ++ "%") }
      else placementNotFound now claim

/-- Accreditation tokens extracted from the claim text by substring test
(lines 203-206). -/
def claimedAccreditations (claim : String) : List String :=
  (["NAAC", "NBA", "AICTE", "UGC"]).filter (fun acc => strContains claim acc)

/-- Model of `_verify_accreditation_claim` (lines 195-253). -/
def verifyAccreditationClaim (now : ℚ) (claim college_name : String) : VerificationResult :=
  let accreditations := claimedAccreditations claim
  let verifiedAccs :=
    ((fetchUgcData college_name).map (fun e => e.accreditation)).getD [] ++
    ((fetchAicteData college_name).map (fun e => e.accreditation)).getD []
  let verifiedCount := (accreditations.filter (fun acc => verifiedAccs.contains acc)).length
  if verifiedCount == accreditations.length then
    { claim := claim, verified := true, confidence := 19/20, source := "UGC/AICTE",
      verification_date := now,
      notes := some ("All accreditations verified: " ++ String.intercalate ", " verifiedAccs) }
  else if verifiedCount > 0 then
    { claim := claim, verified := true, confidence := 7/10, source := "UGC/AICTE",
      verification_date := now,
      notes := some ("Partially verified: " ++ toString verifiedCount ++ "/" ++
        toString accreditations.length ++ " accreditations found") }
  else
    { claim := claim, verified := false, confidence := 4/5, source := "UGC/AICTE",
      verification_date := now,
      notes := some "No matching accreditations found in official records" }

/-- First official program matching the claimed name (case-insensitive
substring) with seat count within 10 of the claimed one (lines 270-275). -/
def findMatchingProgram (programs : List (String × Int)) (program_name : String)
    (claimed_seats : Nat) : Option (String × Int) :=
  programs.find? (fun p =>
    strContains p.1.toLower program_name.toLower &&
      decide (|(claimed_seats : Int) - p.2| ≤ 10))

/-- The `Program not found` result of `_verify_program_claim`
(lines 285-292). -/
def programNotFound (now : ℚ) (claim : String) : VerificationResult :=
  { claim := claim, verified := false, confidence := 3/5, source := "AICTE/UGC",
    verification_date := now,
    notes := some "Program not found in official records or seat count mismatch" }

/-- Model of `_verify_program_claim` (lines 255-302). -/
def verifyProgramClaim (now : ℚ) (claim college_name : String) : VerificationResult :=
  match fetchProgramData college_name with
  | none => programNotFound now claim
  | some programs =>
    match extractProgram claim with
    | none => programNotFound now claim
    | some (program_name, claimed_seats) =>
      match findMatchingProgram programs program_name claimed_seats with
      | some official =>
        { claim := claim, verified := true, confidence := 9/10, source := "AICTE/UGC",
          verification_date := now,
          notes := some ("Program verified: " ++ program_name ++ " with " ++
            toString official.2 ++ " seats") }
      | none => programNotFound now claim

/-- Model of `_verify_nirf_data` (lines 304-327). -/
def verifyNirfData (now : ℚ) (claim college_name : String) : VerificationResult :=
  match fetchNirfData college_name with
  | some _ =>
    { claim := claim, verified := true, confidence := 4/5, source := "NIRF",
      verification_date := now, notes := some "Data found in NIRF records" }
  | none =>
    { claim := claim, verified := false, confidence := 0, source := "NIRF",
      verification_date := now, notes := some "Data not found in NIRF records" }

/-- Model of `_verify_ugc_data` (lines 329-352). -/
def verifyUgcData (now : ℚ) (claim college_name : String) : VerificationResult :=
  match fetchUgcData college_name with
  | some _ =>
    { claim := claim, verified := true, confidence := 7/10, source := "UGC",
      verification_date := now, notes := some "Data found in UGC records" }
  | none =>
    { claim := claim, verified := false, confidence := 0, source := "UGC",
      verification_date := now, notes := some "Data not found in UGC records" }

/-- Model of `_verify_aicte_data` (lines 354-377). -/
def verifyAicteData (now : ℚ) (claim college_name : String) : VerificationResult :=
  match fetchAicteData college_name with
  | some _ =>
    { claim := claim, verified := true, confidence := 7/10, source := "AICTE",
      verification_date := now, notes := some "Data found in AICTE records" }
  | none =>
    { claim := claim, verified := false, confidence := 0, source := "AICTE",
      verification_date := now, notes := some "Data not found in AICTE records" }

/-- Model of Python `max(results, key=lambda x: x.confidence)`: the first
element of maximal confidence. -/
def pyMaxByConfidence (l : List VerificationResult) : Option VerificationResult :=
  l.foldl
    (fun acc x =>
      match acc with
      | none => some x
      | some a => if x.confidence > a.confidence then some x else some a)
    none

/-- Verification attempts dispatched on the claim type
(`_perform_verification`, lines 109-130). -/
def verificationAttempts (now : ℚ) (claim college_name claim_type : String) :
    List VerificationResult :=
  if claim_type == "placement" then [verifyPlacementClaim now claim college_name]
  else if claim_type == "accreditation" then [verifyAccreditationClaim now claim college_name]
  else if claim_type == "program" then [verifyProgramClaim now claim college_name]
  else [verifyNirfData now claim college_name, verifyUgcData now claim college_name,
        verifyAicteData now claim college_name]

/-- Model of `_perform_verification` (lines 103-148): dispatch on claim type,
keep the verified attempts, return the most confident of them, and otherwise a
fresh `verification_failed` result with confidence 0.0. -/
def performVerification (now : ℚ) (claim college_name claim_type : String) :
    VerificationResult :=
  match pyMaxByConfidence
      ((verificationAttempts now claim college_name claim_type).filter
        (fun r => r.verified)) with
  | some best => best
  | none =>
    { claim := claim, verified := false, confidence := 0, source := "verification_failed",
      verification_date := now,
      notes := some "Could not verify claim against government sources" }

/-- The process-wide verification cache `self.verification_cache`, a dict from
cache key to result; the most recent binding for a key is its value. -/
def CacheState := List (String × VerificationResult)

/-- Cache key `f"{college_name}_{claim}_{claim_type}"` (line 33). -/
def cacheKey (claim college_name claim_type : String) : String :=
  college_name ++ "_" ++ claim ++ "_" ++ claim_type

/-- Dict lookup in the cache. -/
def cacheLookup (st : CacheState) (key : String) : Option VerificationResult :=
  ((st : List (String × VerificationResult)).find? (fun kv => kv.1 == key)).map
    (fun kv => kv.2)

/-- Model of `_is_cache_valid` (lines 465-470): entries are valid for 24 hours
(86400 seconds) from their verification timestamp. -/
def isCacheValid (now : ℚ) (cached : VerificationResult) : Bool :=
  decide (now - cached.verification_date < 86400)

/-- Model of `verify_college_claim` (lines 26-45): serve a live cached result
unchanged, otherwise recompute and overwrite the cache entry (the `key` and
`verification_result` locals of the source are inlined). -/
def verifyCollegeClaim (now : ℚ) (st : CacheState)
    (claim college_name claim_type : String) : VerificationResult × CacheState :=
  match cacheLookup st (cacheKey claim college_name claim_type) with
  | some cached =>
    if isCacheValid now cached then (cached, st)
    else
      (performVerification now claim college_name claim_type,
       ((cacheKey claim college_name claim_type,
         performVerification now claim college_name claim_type) :: st :
        List (String × VerificationResult)))
  | none =>
    (performVerification now claim college_name claim_type,
     ((cacheKey claim college_name claim_type,
       performVerification now claim college_name claim_type) :: st :
      List (String × VerificationResult)))

/-- One confidence-summary line appended per checked claim
(`verify_recommendations`, lines 94-97). -/
def citationLine (r : VerificationResult) : String :=
  "Verification: " ++ pyBoolStr r.verified ++ " (Confidence: " ++
    fmtFixed 2 r.confidence ++ ")"

/-- Aggregate verification status from the checked-claim counts
(`verify_recommendations`, lines 80-90). -/
def aggregateStatus (verifiedCount totalCount : Nat) : String :=
  if totalCount == 0 then "no_claims"
  else if verifiedCount == totalCount then "verified"
  else if verifiedCount > totalCount / 2 then "partially_verified"
  else "flagged"

/-- Model of one iteration of `verify_recommendations` (lines 52-99): check
the placement claim (if placement stats exist), the accreditation claim (if
any accreditation is listed) and the first program claim (if any program
exists), then update the status and append the confidence summaries. -/
def processRecommendation (now : ℚ) (st : CacheState) (rec : CollegeRecommendation) :
    CollegeRecommendation × CacheState :=
  let step1 : List VerificationResult × CacheState :=
    match rec.college.placement_stats.getLast? with
    | some latest =>
      let (r, st2) := verifyCollegeClaim now st
        ("Placement percentage: " ++ fmtQ latest.placement_percentage ++ "%")
        rec.college.name "placement"
      ([r], st2)
    | none => ([], st)
  let step2 : List VerificationResult × CacheState :=
    if rec.college.accreditation.isEmpty then step1
    else
      let (r, st2) := verifyCollegeClaim now step1.2
        ("Accredited by: " ++ String.intercalate ", " rec.college.accreditation)
        rec.college.name "accreditation"
      (step1.1 ++ [r], st2)
  let step3 : List VerificationResult × CacheState :=
    match rec.college.programs with
    | p :: _ =>
      let (r, st2) := verifyCollegeClaim now step2.2
        ("Offers " ++ p.program_name ++ " with " ++ toString p.seats_total ++ " seats")
        rec.college.name "program"
      (step2.1 ++ [r], st2)
    | [] => step2
  let results := step3.1
  let verifiedCount := (results.filter (fun r => r.verified)).length
  ({ rec with
      verification_status := aggregateStatus verifiedCount results.length
      evidence_citations := rec.evidence_citations ++ results.map citationLine },
   step3.2)

/-- Model of `CollegeVerificationService.verify_recommendations`
(lines 47-101), threading the shared cache through the loop. -/
def verifyRecommendations (now : ℚ) :
    CacheState → List CollegeRecommendation → List CollegeRecommendation × CacheState
  | st, [] => ([], st)
  | st, rec :: rest =>
    let (rec2, st2) := processRecommendation now st rec
    let (rest2, st3) := verifyRecommendations now st2 rest
    (rec2 :: rest2, st3)

/-! ### Generation step: demo-mode `MockLLM` plus the JSON-parsing branch of
`CollegeRecommendationLLM.generate_recommendations` (llm_service.py).
`MockLLM.invoke` returns a constant JSON string (its regex parses of the
prompt are dead values), so the parsed recommendations are a constant list. -/

/-- One program object of the mock JSON (only keys emitted by `MockLLM`). -/
structure MockProgram where
  name : String
  stream : String
  duration_years : Int
  fees_annual : Int
  seats_total : Int
  eligibility_criteria : String
  deriving Repr, DecidableEq

/-- One placement-stats object of the mock JSON. -/
structure MockStats where
  year : Int
  placement_percentage : ℚ
  average_salary : ℚ
  top_recruiters : List String
  deriving Repr, DecidableEq

/-- One mentor-rating object of the mock JSON. -/
structure MockRating where
  mentor_name : String
  rating : ℚ
  review_text : String
  deriving Repr, DecidableEq

/-- One recommendation object of the mock JSON response. -/
structure MockRec where
  rank : Int
  college_name : String
  college_id : String
  location : String
  college_type : String
  established_year : Int
  accreditation : List String
  programs : List MockProgram
  placement_stats : List MockStats
  mentor_ratings : List MockRating
  official_website : String
  source_links : List String
  deriving Repr, DecidableEq

/-- The three objects of the constant `MockLLM` response (llm_service.py
lines 556-667). -/
def mockResponse : List MockRec :=
  [{ rank := 1
     college_name := "National Institute of Technology Srinagar"
     college_id := "nit_srinagar"
     location := "Srinagar, Jammu and Kashmir"
     college_type := "government"
     established_year := 1960
     accreditation := ["NAAC A", "NBA", "AICTE"]
     programs := [{ name := "Bachelor of Technology in Computer Science and Engineering"
                    stream := "engineering", duration_years := 4, fees_annual := 150000
                    seats_total := 60
                    eligibility_criteria := "JEE Main qualified, 12th with 75% marks" }]
     placement_stats := [{ year := 2023, placement_percentage := 90
                           average_salary := 800000
                           top_recruiters := ["TCS", "Infosys", "Wipro", "HCL", "Cognizant"] }]
     mentor_ratings := [{ mentor_name := "Dr. Ahmed Khan", rating := 21/5
                          review_text := "Good engineering college in Kashmir with decent infrastructure and faculty." }]
     official_website := "https://www.nitsri.ac.in"
     source_links := ["https://www.nitsri.ac.in", "https://www.nirf.ac.in"] },
   { rank := 2
     college_name := "University of Jammu"
     college_id := "university_of_jammu"
     location := "Jammu, Jammu and Kashmir"
     college_type := "government"
     established_year := 1969
     accreditation := ["NAAC A", "UGC"]
     programs := [{ name := "Bachelor of Technology in Computer Science and Engineering"
                    stream := "engineering", duration_years := 4, fees_annual := 50000
                    seats_total := 60
                    eligibility_criteria := "12th with 50% marks in Physics, Chemistry, Mathematics" }]
     placement_stats := [{ year := 2023, placement_percentage := 75
                           average_salary := 400000
                           top_recruiters := ["J&K Bank", "State Bank of India", "HDFC Bank", "TCS", "Infosys"] }]
     mentor_ratings := [{ mentor_name := "Prof. Sunita Sharma", rating := 4
                          review_text := "Good university in Jammu with decent infrastructure and local job opportunities." }]
     official_website := "https://www.jammuuniversity.ac.in"
     source_links := ["https://www.jammuuniversity.ac.in", "https://www.ugc.ac.in"] },
   { rank := 3
     college_name := "University of Kashmir"
     college_id := "university_of_kashmir"
     location := "Srinagar, Jammu and Kashmir"
     college_type := "government"
     established_year := 1948
     accreditation := ["NAAC A", "UGC"]
     programs := [{ name := "Bachelor of Technology in Information Technology"
                    stream := "engineering", duration_years := 4, fees_annual := 45000
                    seats_total := 40
                    eligibility_criteria := "12th with 50% marks in Physics, Chemistry, Mathematics" }]
     placement_stats := [{ year := 2023, placement_percentage := 667/10
                           average_salary := 350000
                           top_recruiters := ["J&K Bank", "State Bank of India", "Government of J&K", "Local IT companies"] }]
     mentor_ratings := [{ mentor_name := "Dr. Ahmed Mir", rating := 19/5
                          review_text := "Established university in Kashmir with good academic programs and local connections." }]
     official_website := "https://www.kashmiruniversity.net"
     source_links := ["https://www.kashmiruniversity.net", "https://www.ugc.ac.in"] }]

/-- Mapping of one mock program object to `CollegeProgram`
(generate_recommendations, lines 303-315; absent keys take the listed
defaults). -/
def buildProgram (p : MockProgram) : CollegeProgram where
  program_name := p.name
  stream := p.stream
  duration_years := p.duration_years
  fees_annual := p.fees_annual
  seats_total := p.seats_total
  seats_general := 50
  seats_reserved := 50
  eligibility_criteria := p.eligibility_criteria
  entrance_exam := none
  cutoff_percentage := none

/-- Mapping of one mock stats object to `PlacementStats` (lines 317-329). -/
def buildStats (s : MockStats) : PlacementStats where
  year := s.year
  total_students := 100
  placed_students := 90
  placement_percentage := s.placement_percentage
  average_salary := s.average_salary
  highest_salary := s.average_salary * 2
  top_recruiters := s.top_recruiters
  job_roles := ["Software Engineer", "Data Scientist"]

/-- Mapping of one mock rating object to `MentorRating` (lines 331-342). -/
def buildRating (r : MockRating) : MentorRating where
  mentor_id := "mentor_001"
  mentor_name := r.mentor_name
  rating := r.rating
  review_text := r.review_text
  review_date := "2024-01-01T00:00:00Z"
  verified := true
  categories := ["faculty", "infrastructure"]

/-- The `College` object built by the parse loop (lines 344-360): district and
state come from splitting the location on commas (note the state keeps the
leading space, as in Python); unset dict fields take their pydantic
defaults. -/
def buildCollege (m : MockRec) : College where
  college_id := m.college_id
  name := m.college_name
  college_type := m.college_type
  location := m.location
  district := ((m.location.splitOn ",").headD m.location)
  state := ((m.location.splitOn ",").getLastD m.location)
  established_year := m.established_year
  accreditation := m.accreditation
  programs := m.programs.map buildProgram
  placement_stats := m.placement_stats.map buildStats
  mentor_ratings := m.mentor_ratings.map buildRating
  infrastructure := { labs := none, library_books := none, hostel_capacity := none
                      sports_facilities := none, wifi_campus := none }
  faculty_info := { total_faculty := none, phd_faculty := none
                    student_faculty_ratio := none }
  official_website := some m.official_website
  contact_info := { phone := none, email := none }
  last_updated := ""
  source_links := m.source_links

/-- The rationale assembled at lines 372-399 from the parsed college data. -/
def buildRationale (m : MockRec) : String :=
  let programs := m.programs.map buildProgram
  let placement_stats := m.placement_stats.map buildStats
  let part1 : List String :=
    if programs.any (fun p => p.stream == "engineering" || p.stream == "science") then
      ["offers " ++ ((programs.map (fun p => p.stream)).headD "") ++ " programs"]
    else []
  let part2 : List String :=
    if strContains m.location ("Jammu") || strContains m.location ("Kashmir") then
      ["is located in Jammu & Kashmir region"]
    else []
  let part3 : List String :=
    match programs with
    | [] => []
    | _ =>
      let avgFees : ℚ := ((programs.map (fun p => (p.fees_annual : ℚ))).sum) / (programs.length : ℚ)
      if avgFees ≤ 200000 then ["has affordable fees"]
      else if avgFees ≤ 300000 then ["fits your budget range"]
      else []
  let part4 : List String :=
    match placement_stats.getLast? with
    | none => []
    | some latest =>
      if latest.placement_percentage ≥ 80 then ["has excellent placement record"]
      else if latest.placement_percentage ≥ 60 then ["has good placement opportunities"]
      else []
  "Recommended because " ++ m.college_name ++ " " ++
    String.intercalate ", " (part1 ++ part2 ++ part3 ++ part4) ++ "."

/-- One parsed recommendation (lines 361-411): a fixed draft score whose
composite 7.8 is the generation step's own value, rationale as above,
citations and links from `source_links`, status `pending`. -/
def buildRecommendation (m : MockRec) : CollegeRecommendation where
  rank := m.rank
  college := buildCollege m
  score := { official_quality := 8, mentor_trust := 15/2, relevance := 17/2
             proximity := 7, composite_score := 39/5, confidence := 4/5 }
  rationale := buildRationale m
  evidence_citations := m.source_links
  source_links := m.source_links
  verification_status := "pending"

/-- Model of `CollegeRecommendationLLM.generate_recommendations` in demo mode:
the prompt built from the profile and documents is consumed by `MockLLM`,
whose constant response parses to these three recommendations regardless of
the inputs. -/
def generateRecommendations (_profile : StudentProfile) (_docs : List Document)
    (_preferences : List (String × ℚ)) : List CollegeRecommendation :=
  mockResponse.map buildRecommendation

/-! ### RecommendationOrchestrator:
`CollegeRecommendationService.get_recommendations` (lines 62-117). -/

/-- Budget post-filter (lines 80-91): keep documents whose fee range overlaps
the student budget (`min_fees <= max_budget and max_fees >= min_budget`), then
take the top 5.  `budget_range` is a required tuple, hence always truthy. -/
def budgetFilter (budget : Int × Int) (docs : List Document) : List Document :=
  (docs.filter (fun d =>
    decide (d.metadata.min_fees ≤ budget.2) && decide (d.metadata.max_fees ≥ budget.1))).take 5

/-- Model of `get_recommendations`: the similarity-search result is the
`retrievedDocs` parameter; budget post-filter, generation, optional
preference reweighting (skipped for an empty preferences dict, which is falsy
in Python), optional verification, then truncation to `max_recommendations`. -/
def getRecommendations (req : RecommendationRequest) (retrievedDocs : List Document)
    (now : ℚ) (st : CacheState) :
    Except String (List CollegeRecommendation × CacheState) :=
  let docs := budgetFilter req.student_profile.budget_range retrievedDocs
  let recs := generateRecommendations req.student_profile docs req.preferences
  match (match req.preferences with
         | [] => Except.ok recs
         | _ => applyPreferences recs req.preferences) with
  | .error e => .error e
  | .ok recs2 =>
    let verified :=
      if req.include_verification then verifyRecommendations now st recs2
      else (recs2, st)
    .ok (verified.1.take req.max_recommendations, verified.2)

/-- Recommendations returned by a pipeline run (empty when the run raised). -/
def resultList (e : Except String (List CollegeRecommendation × CacheState)) :
    List CollegeRecommendation :=
  match e with
  | .ok (l, _) => l
  | .error _ => []

/-! ### Helper lemmas -/

theorem sortLE_total_rel : ∀ a b : CollegeRecommendation, sortLE a b ∨ sortLE b a :=
  fun a b => (le_total b.score.composite_score a.score.composite_score).elim Or.inl Or.inr

instance : IsTotal CollegeRecommendation sortLE := ⟨sortLE_total_rel⟩

instance : IsTrans CollegeRecommendation sortLE :=
  ⟨fun _ _ _ h1 h2 => le_trans h2 h1⟩

theorem length_assignRanksFrom (k : Nat) (l : List CollegeRecommendation) :
    (assignRanksFrom k l).length = l.length := by
  induction l generalizing k with
  | nil => rfl
  | cons r rs ih => simp [assignRanksFrom, ih]

/-- Reassigning ranks does not change anything else: the rank-erased lists
agree. -/
def stripRank (r : CollegeRecommendation) : CollegeRecommendation :=
  { r with rank := 0 }

theorem assignRanksFrom_map_stripRank (k : Nat) (l : List CollegeRecommendation) :
    (assignRanksFrom k l).map stripRank = l.map stripRank := by
  induction l generalizing k with
  | nil => rfl
  | cons r rs ih => simp [assignRanksFrom, ih, stripRank]

theorem assignRanksFrom_map_composite (k : Nat) (l : List CollegeRecommendation) :
    (assignRanksFrom k l).map (fun r => r.score.composite_score) =
      l.map (fun r => r.score.composite_score) := by
  induction l generalizing k with
  | nil => rfl
  | cons r rs ih => simp [assignRanksFrom, ih]

theorem assignRanksFrom_map_rank (k : Nat) (l : List CollegeRecommendation) :
    (assignRanksFrom k l).map (fun r => r.rank) =
      (List.range' k l.length).map (fun n => (n : Int)) := by
  induction l generalizing k with
  | nil => rfl
  | cons r rs ih => simp [assignRanksFrom, List.range', ih]

theorem mem_assignRanksFrom_score {r : CollegeRecommendation} {k : Nat}
    {l : List CollegeRecommendation} (h : r ∈ assignRanksFrom k l) :
    ∃ a ∈ l, r.score = a.score := by
  induction l generalizing k with
  | nil => cases h
  | cons x xs ih =>
    simp only [assignRanksFrom, List.mem_cons] at h
    rcases h with h | h
    · exact ⟨x, List.mem_cons_self x xs, by rw [h]⟩
    · obtain ⟨a, ha, hs⟩ := ih h
      exact ⟨a, List.mem_cons_of_mem x ha, hs⟩

theorem pySortDesc_perm (l : List CollegeRecommendation) : (pySortDesc l).Perm l :=
  List.perm_insertionSort sortLE l

theorem pySortDesc_length (l : List CollegeRecommendation) :
    (pySortDesc l).length = l.length :=
  (pySortDesc_perm l).length_eq

theorem pySortDesc_sorted (l : List CollegeRecommendation) :
    (pySortDesc l).Pairwise sortLE :=
  List.sorted_insertionSort sortLE l

/-- Stability of the modelled Python sort: a sublist of the input that is
already internally ordered survives as a sublist of the output; in particular
equal-composite elements keep their original relative order. -/
theorem sublist_pySortDesc {c l : List CollegeRecommendation}
    (hs : c.Sublist l) (hc : c.Pairwise sortLE) : c.Sublist (pySortDesc l) := by
  induction l generalizing c with
  | nil =>
    rw [List.sublist_nil.mp hs]
    exact List.nil_sublist _
  | cons x xs ih =>
    cases hs with
    | cons _ h =>
      exact (ih h hc).trans (List.sublist_orderedInsert x (List.insertionSort sortLE xs))
    | cons₂ _ h =>
      rcases List.pairwise_cons.mp hc with ⟨hx, hcTail⟩
      exact List.cons_sublist_orderedInsert (ih h hcTail) hx

theorem pyFoldMax_mem :
    ∀ (l : List VerificationResult) (acc : Option VerificationResult)
      (y : VerificationResult),
      l.foldl
        (fun acc x =>
          match acc with
          | none => some x
          | some a => if x.confidence > a.confidence then some x else some a)
        acc = some y → y ∈ l ∨ acc = some y := by
  intro l
  induction l with
  | nil => exact fun acc y hy => Or.inr hy
  | cons z zs ih =>
    intro acc y hy
    simp only [List.foldl_cons] at hy
    rcases ih _ y hy with hm | hm
    · exact Or.inl (List.mem_cons_of_mem z hm)
    · match acc with
      | none =>
        simp only at hm
        cases hm
        exact Or.inl (List.mem_cons_self z zs)
      | some a =>
        simp only at hm
        by_cases hgt : z.confidence > a.confidence
        · rw [if_pos hgt] at hm
          cases hm
          exact Or.inl (List.mem_cons_self z zs)
        · rw [if_neg hgt] at hm
          exact Or.inr hm

theorem optGetDSnd (o : Option (String × ℚ)) (k : String) (d : ℚ) :
    (o.getD (k, d)).2 = (o.map (fun kv => kv.2)).getD d := by
  cases o <;> rfl

theorem pyMaxByConfidence_mem {l : List VerificationResult} {x : VerificationResult}
    (h : pyMaxByConfidence l = some x) : x ∈ l := by
  rcases pyFoldMax_mem l none x h with hx | hx
  · exact hx
  · cases hx

theorem verifyPlacementClaim_date (now : ℚ) (claim name : String) :
    (verifyPlacementClaim now claim name).verification_date = now := by
  unfold verifyPlacementClaim
  split
  · rfl
  · split
    · rfl
    · split <;> rfl

theorem verifyAccreditationClaim_date (now : ℚ) (claim name : String) :
    (verifyAccreditationClaim now claim name).verification_date = now := by
  unfold verifyAccreditationClaim
  dsimp only
  split
  · rfl
  · split <;> rfl

theorem verifyProgramClaim_date (now : ℚ) (claim name : String) :
    (verifyProgramClaim now claim name).verification_date = now := by
  unfold verifyProgramClaim
  split
  · rfl
  · split
    · rfl
    · split <;> rfl

theorem mem_verificationAttempts_date (now : ℚ) (claim name claim_type : String) :
    ∀ r ∈ verificationAttempts now claim name claim_type,
      r.verification_date = now := by
  intro r hr
  unfold verificationAttempts at hr
  split at hr
  · simp only [List.mem_singleton] at hr
    exact hr ▸ verifyPlacementClaim_date now claim name
  · split at hr
    · simp only [List.mem_singleton] at hr
      exact hr ▸ verifyAccreditationClaim_date now claim name
    · split at hr
      · simp only [List.mem_singleton] at hr
        exact hr ▸ verifyProgramClaim_date now claim name
      · simp only [List.mem_cons, List.mem_singleton, List.not_mem_nil, or_false] at hr
        rcases hr with hr | hr | hr
        · rw [hr]; unfold verifyNirfData; split <;> rfl
        · rw [hr]; unfold verifyUgcData; split <;> rfl
        · rw [hr]; unfold verifyAicteData; split <;> rfl

theorem performVerification_date (now : ℚ) (claim name claim_type : String) :
    (performVerification now claim name claim_type).verification_date = now := by
  unfold performVerification
  cases hbest : pyMaxByConfidence
      ((verificationAttempts now claim name claim_type).filter
        (fun r => r.verified)) with
  | none => rfl
  | some best =>
    exact mem_verificationAttempts_date now claim name claim_type best
      (List.mem_of_mem_filter (pyMaxByConfidence_mem hbest))

/-- The frame relation of one verification pass: only `verification_status`
changes freely and `evidence_citations` grows by appended entries; every other
field is preserved. -/
def frameRel (a b : CollegeRecommendation) : Prop :=
  b.rank = a.rank ∧ b.college = a.college ∧ b.score = a.score ∧
  b.rationale = a.rationale ∧ b.source_links = a.source_links ∧
  ∃ extra, b.evidence_citations = a.evidence_citations ++ extra

theorem processRecommendation_frame (now : ℚ) (st : CacheState)
    (rec : CollegeRecommendation) :
    frameRel rec (processRecommendation now st rec).1 := by
  unfold processRecommendation
  exact ⟨rfl, rfl, rfl, rfl, rfl, ⟨_, rfl⟩⟩

theorem verifyRecommendations_forall2 (now : ℚ) (st : CacheState)
    (recs : List CollegeRecommendation) :
    List.Forall₂ frameRel recs (verifyRecommendations now st recs).1 := by
  induction recs generalizing st with
  | nil => exact List.Forall₂.nil
  | cons r rs ih =>
    exact List.Forall₂.cons (processRecommendation_frame now st r)
      (ih (processRecommendation now st r).2)

theorem forall2_mem_right {R : CollegeRecommendation → CollegeRecommendation → Prop}
    {l1 l2 : List CollegeRecommendation} (h : List.Forall₂ R l1 l2)
    {b : CollegeRecommendation} (hb : b ∈ l2) : ∃ a ∈ l1, R a b := by
  induction h with
  | nil => cases hb
  | cons hr _ ih =>
    rcases List.mem_cons.mp hb with hb2 | hb2
    · exact ⟨_, List.mem_cons_self _ _, hb2 ▸ hr⟩
    · obtain ⟨a, ha, hRa⟩ := ih hb2
      exact ⟨a, List.mem_cons_of_mem _ ha, hRa⟩

theorem verifyRecommendations_length (now : ℚ) (st : CacheState)
    (recs : List CollegeRecommendation) :
    (verifyRecommendations now st recs).1.length = recs.length :=
  (verifyRecommendations_forall2 now st recs).length_eq.symm

theorem applyPreferences_ok {recs out : List CollegeRecommendation}
    {preferences : List (String × ℚ)}
    (h : applyPreferences recs preferences = .ok out) :
    totalWeight preferences ≠ 0 ∧
      out = assignRanksFrom 1 (pySortDesc (recs.map (rescoreRecommendation preferences))) := by
  by_cases h0 : totalWeight preferences = 0
  · rw [applyPreferences, if_pos h0] at h
    cases h
  · rw [applyPreferences, if_neg h0] at h
    cases h
    exact ⟨h0, rfl⟩

theorem applyPreferences_length {recs out : List CollegeRecommendation}
    {preferences : List (String × ℚ)}
    (h : applyPreferences recs preferences = .ok out) :
    out.length = recs.length := by
  rw [(applyPreferences_ok h).2, length_assignRanksFrom, pySortDesc_length,
    List.length_map]

/-- Every score produced by `rescoreRecommendation` satisfies the weighted-sum
invariant over its own sub-scores. -/
def scoreOK (preferences : List (String × ℚ)) (s : RecommendationScore) : Prop :=
  s.composite_score =
    s.official_quality * normalizedWeight preferences "official_quality" +
    s.mentor_trust * normalizedWeight preferences "mentor_trust" +
    s.relevance * normalizedWeight preferences "relevance" +
    s.proximity * normalizedWeight preferences "proximity"

theorem rescore_scoreOK (preferences : List (String × ℚ))
    (r : CollegeRecommendation) :
    scoreOK preferences (rescoreRecommendation preferences r).score := rfl

/-! ### Concrete fixtures -/

/-- Projection of an `applyPreferences` run (empty on the error branch). -/
def okRecs (e : Except String (List CollegeRecommendation)) : List CollegeRecommendation :=
  match e with
  | .ok l => l
  | .error _ => []

/-- A minimal college: no programs, no placement stats, no mentor ratings and
an empty `infrastructure` dict — the pydantic defaults. -/
def simpleCollege : College where
  college_id := "c0"
  name := "C0"
  college_type := "government"
  location := "L"
  district := "L"
  state := "L"
  established_year := 2000
  accreditation := []
  programs := []
  placement_stats := []
  mentor_ratings := []
  infrastructure := { labs := none, library_books := none, hostel_capacity := none
                      sports_facilities := none, wifi_campus := none }
  faculty_info := { total_faculty := none, phd_faculty := none
                    student_faculty_ratio := none }
  official_website := none
  contact_info := { phone := none, email := none }
  last_updated := ""
  source_links := []

/-- A single concrete recommendation used to exercise the scoring engine. -/
def wRec : CollegeRecommendation where
  rank := 5
  college := simpleCollege
  score := { official_quality := 8, mentor_trust := 6, relevance := 4
             proximity := 2, composite_score := 0, confidence := 1/2 }
  rationale := ""
  evidence_citations := []
  source_links := []
  verification_status := "pending"

/-- A standard valid student profile. -/
def profileStd : StudentProfile where
  age := 18
  board := "CBSE"
  marks_percentage := 85
  preferred_streams := ["engineering"]
  budget_range := (100000, 500000)
  preferred_language := "English"
  max_distance_km := 100
  location := some "Jammu"
  interests := []
  career_goals := []

/-- Preference overrides setting all four factor weights to 0. -/
def prefsZero : List (String × ℚ) :=
  [("official_quality", 0), ("mentor_trust", 0), ("relevance", 0), ("proximity", 0)]

/-- Request whose merged weight vector sums to 0. -/
def reqZeroWeights : RecommendationRequest where
  student_profile := profileStd
  preferences := prefsZero
  max_recommendations := 3
  include_verification := true

/-! ### Claim C4 -/

/-- C4: after reweighting, `_apply_preferences` returns the recommendations
sorted by composite score descending; the result is a permutation of the
rescored input (up to the rewritten ranks); ranks are reassigned densely as
1..N; and the sort is stable — any equal-composite subsequence of the rescored
input survives in its original relative order.  This holds for inputs of every
size, in particular 0..10. -/
theorem apply_preferences_sort_and_ranks
    (recs out : List CollegeRecommendation) (preferences : List (String × ℚ))
    (h : applyPreferences recs preferences = .ok out) :
    (out.map (fun r => r.score.composite_score)).Pairwise (fun a b => b ≤ a) ∧
    (out.map stripRank).Perm ((recs.map (rescoreRecommendation preferences)).map stripRank) ∧
    out.map (fun r => r.rank) = (List.range' 1 out.length).map (fun n => (n : Int)) ∧
    (∀ c : List CollegeRecommendation,
      c.Sublist (recs.map (rescoreRecommendation preferences)) →
      c.Pairwise (fun a b => a.score.composite_score = b.score.composite_score) →
      (c.map stripRank).Sublist (out.map stripRank)) := by
  obtain ⟨h0, rfl⟩ := applyPreferences_ok h
  refine ⟨?_, ?_, ?_, ?_⟩
  · rw [assignRanksFrom_map_composite]
    exact List.pairwise_map.mpr (pySortDesc_sorted (recs.map (rescoreRecommendation preferences)))
  · rw [assignRanksFrom_map_stripRank]
    exact (pySortDesc_perm _).map stripRank
  · rw [assignRanksFrom_map_rank, length_assignRanksFrom]
  · intro c hsub hpair
    have hc : c.Pairwise sortLE := hpair.imp (fun hcomp => hcomp.symm.le)
    rw [assignRanksFrom_map_stripRank]
    exact (sublist_pySortDesc hsub hc).map stripRank

/-- Witness for C4 at a concrete one-element input. -/
theorem apply_preferences_sort_and_ranks_witness :
    ((okRecs (applyPreferences [wRec] [])).map (fun r => r.rank) =
      (List.range' 1 (okRecs (applyPreferences [wRec] [])).length).map (fun n => (n : Int))) ∧
    (okRecs (applyPreferences [wRec] [])).length = 1 := by
  have h : applyPreferences [wRec] [] =
      .ok (assignRanksFrom 1 (pySortDesc ([wRec].map (rescoreRecommendation [])))) := by
    unfold applyPreferences
    rw [if_neg (by norm_num [totalWeight, mergeWeights, dictGet, defaultWeights])]
  refine ⟨?_, ?_⟩
  · have hr := (apply_preferences_sort_and_ranks [wRec] _ [] h).2.2.1
    simpa only [okRecs, h] using hr
  · rw [h]
    simp [okRecs, length_assignRanksFrom, pySortDesc_length]

/-! ### Claim C9 -/

/-- C9: `verify_recommendations` returns a list of the same length and order
as its input, and each output element stands in the frame relation to its
input element: rank, college, score, rationale and source links are unchanged,
the verification status is rewritten, and the evidence citations only grow by
appended entries. -/
theorem verify_recommendations_frame (now : ℚ) (st : CacheState)
    (recs : List CollegeRecommendation) :
    (verifyRecommendations now st recs).1.length = recs.length ∧
    List.Forall₂ frameRel recs (verifyRecommendations now st recs).1 :=
  ⟨verifyRecommendations_length now st recs, verifyRecommendations_forall2 now st recs⟩

/-! ### Claim C7 -/

/-- C7 counterexample: a preference key that is not one of the four factors
(`"foo"`) changes the normalization sum (from 1 to 2) and changes the
composite scores the scoring engine produces, contradicting the claim that
such keys do not affect them. -/
theorem extra_preference_key_changes_scores :
    totalWeight [("foo", (1 : ℚ))] ≠ totalWeight [] ∧
    (okRecs (applyPreferences [wRec] [("foo", (1 : ℚ))])).map
        (fun r => r.score.composite_score) ≠
      (okRecs (applyPreferences [wRec] [])).map (fun r => r.score.composite_score) := by
  constructor
  · simp [totalWeight, mergeWeights, dictGet, defaultWeights]
  · simp [applyPreferences, totalWeight, mergeWeights, dictGet, defaultWeights,
      okRecs, pySortDesc, List.insertionSort, List.orderedInsert, assignRanksFrom,
      rescoreRecommendation, normalizedWeight, wRec]
    norm_num

/-- C7 amended: a user value does replace the default for each of the four
factor keys, but preference keys outside the four factors are merged into the
weight dict as well and add their values to the normalization sum (hence they
scale every composite). -/
theorem merge_weights_behaviour (preferences : List (String × ℚ)) :
    dictGet (mergeWeights preferences) "official_quality" =
      some ((dictGet preferences "official_quality").getD (3/10)) ∧
    dictGet (mergeWeights preferences) "mentor_trust" =
      some ((dictGet preferences "mentor_trust").getD (1/5)) ∧
    dictGet (mergeWeights preferences) "relevance" =
      some ((dictGet preferences "relevance").getD (3/10)) ∧
    dictGet (mergeWeights preferences) "proximity" =
      some ((dictGet preferences "proximity").getD (1/5)) ∧
    totalWeight preferences =
      ((dictGet preferences "official_quality").getD (3/10) +
       (dictGet preferences "mentor_trust").getD (1/5) +
       (dictGet preferences "relevance").getD (3/10) +
       (dictGet preferences "proximity").getD (1/5)) +
      ((preferences.filter (fun kv => dictGet defaultWeights kv.1 == none)).map
        (fun kv => kv.2)).sum := by
  refine ⟨?_, ?_, ?_, ?_, ?_⟩
  · simp [mergeWeights, dictGet, defaultWeights, optGetDSnd]
  · simp [mergeWeights, dictGet, defaultWeights, optGetDSnd]
  · simp [mergeWeights, dictGet, defaultWeights, optGetDSnd]
  · simp [mergeWeights, dictGet, defaultWeights, optGetDSnd]
  · simp only [totalWeight, mergeWeights, defaultWeights, List.map_append,
      List.sum_append, List.map_cons, List.map_nil, List.sum_cons, List.sum_nil]
    ring

/-! ### Claim C6 -/

/-- C6 counterexample: the all-zero preference override passes model
validation, and `get_recommendations` then fails with an unhandled
`ZeroDivisionError` from the weight normalization — not with a boundary
validation error. -/
theorem zero_weights_not_validation_error :
    requestValid reqZeroWeights = true ∧
    getRecommendations reqZeroWeights [] 0 [] =
      .error "ZeroDivisionError: float division by zero" := by
  constructor
  · simp only [requestValid, reqZeroWeights, profileStd, Bool.and_eq_true,
      decide_eq_true_eq]
    norm_num
  · simp [getRecommendations, applyPreferences, totalWeight, mergeWeights,
      dictGet, defaultWeights, reqZeroWeights, prefsZero, budgetFilter,
      generateRecommendations]

/-- C6 amended: a request whose merged weight vector sums to 0 (with a
non-empty preference dict) is not rejected at the boundary; the pipeline
raises `ZeroDivisionError` during weight normalization and produces no
result. -/
theorem zero_weight_sum_raises (req : RecommendationRequest) (docs : List Document)
    (now : ℚ) (st : CacheState) (h0 : totalWeight req.preferences = 0)
    (hne : req.preferences ≠ []) :
    getRecommendations req docs now st =
      .error "ZeroDivisionError: float division by zero" := by
  match hp : req.preferences with
  | [] => exact absurd hp hne
  | p :: ps =>
    simp only [getRecommendations, hp]
    rw [applyPreferences, if_pos (hp ▸ h0)]

/-- Witness for C6 amended at the concrete zero-weight request. -/
theorem zero_weight_sum_raises_witness :
    getRecommendations reqZeroWeights [] 5 [] =
      .error "ZeroDivisionError: float division by zero" :=
  zero_weight_sum_raises reqZeroWeights [] 5 []
    (by simp [reqZeroWeights, prefsZero, totalWeight, mergeWeights, dictGet,
      defaultWeights])
    (by simp [reqZeroWeights, prefsZero])

/-! ### Claim C8 -/

/-- C8 counterexample: a college with zero programs (and the default empty
`infrastructure` dict) makes `create_college_documents` raise: formatting the
`'N/A'` fallback for the missing `library_books` key with `:,` is a
`ValueError`.  So indexing a zero-program college can raise. -/
theorem create_documents_raises_on_missing_library_books :
    simpleCollege.programs = [] ∧
    createCollegeDocuments [simpleCollege] =
      .error "ValueError: Cannot specify comma with s" := by
  constructor
  · rfl
  · rfl

/-- C8 amended: provided the infrastructure dict has a `library_books` entry
(the only interpolation that can raise), indexing succeeds; a college with
zero programs gets fee metadata 0/0, and a college with zero mentor ratings
gets average rating 0.0 and no latest-review block in the document text. -/
theorem create_document_zero_cases (c : College) (books : Int)
    (h : c.infrastructure.library_books = some books) :
    (createDocument c).isOk = true ∧
    (c.programs = [] → (metadataOf c).min_fees = 0 ∧ (metadataOf c).max_fees = 0) ∧
    (c.mentor_ratings = [] → (metadataOf c).avg_rating = 0 ∧ mentorSection c = "") := by
  refine ⟨?_, ?_, ?_⟩
  · simp [createDocument, infraSection, h, Except.isOk, Except.toBool]
  · intro hp
    constructor <;> simp [metadataOf, hp]
  · intro hm
    constructor
    · simp [metadataOf, hm]
    · simp [mentorSection, hm]

/-- Witness for C8 amended: a concrete college with `library_books` present,
zero programs and zero mentor ratings. -/
theorem create_document_zero_cases_witness :
    (createDocument { simpleCollege with
        infrastructure := { labs := none, library_books := some 5000
                            hostel_capacity := none, sports_facilities := none
                            wifi_campus := none } }).isOk = true ∧
    ((metadataOf { simpleCollege with
        infrastructure := { labs := none, library_books := some 5000
                            hostel_capacity := none, sports_facilities := none
                            wifi_campus := none } }).min_fees = 0 ∧
     (metadataOf { simpleCollege with
        infrastructure := { labs := none, library_books := some 5000
                            hostel_capacity := none, sports_facilities := none
                            wifi_campus := none } }).avg_rating = 0) := by
  have h := create_document_zero_cases
    { simpleCollege with
        infrastructure := { labs := none, library_books := some 5000
                            hostel_capacity := none, sports_facilities := none
                            wifi_campus := none } } 5000 rfl
  exact ⟨h.1, (h.2.1 rfl).1, (h.2.2 rfl).1⟩

/-- The confidence-0 `verification_failed` result of `_perform_verification`
(lines 140-148). -/
def unverifiedResult (now : ℚ) (claim : String) : VerificationResult :=
  { claim := claim, verified := false, confidence := 0, source := "verification_failed",
    verification_date := now,
    notes := some "Could not verify claim against government sources" }

theorem performVerification_placement (now : ℚ) (claim name : String) :
    performVerification now claim name "placement" =
      if (verifyPlacementClaim now claim name).verified then
        verifyPlacementClaim now claim name
      else unverifiedResult now claim := by
  unfold performVerification verificationAttempts unverifiedResult
  cases hb : (verifyPlacementClaim now claim name).verified <;>
    simp [hb, pyMaxByConfidence]

theorem performVerification_accreditation (now : ℚ) (claim name : String) :
    performVerification now claim name "accreditation" =
      if (verifyAccreditationClaim now claim name).verified then
        verifyAccreditationClaim now claim name
      else unverifiedResult now claim := by
  unfold performVerification verificationAttempts unverifiedResult
  cases hb : (verifyAccreditationClaim now claim name).verified <;>
    simp [hb, pyMaxByConfidence]

theorem verifyCollegeClaim_miss (now : ℚ) (st : CacheState)
    (claim name ctype : String)
    (hmiss : cacheLookup st (cacheKey claim name ctype) = none) :
    verifyCollegeClaim now st claim name ctype =
      (performVerification now claim name ctype,
       (cacheKey claim name ctype, performVerification now claim name ctype) :: st) := by
  unfold verifyCollegeClaim
  rw [hmiss]

theorem cacheLookup_insert_self (st : CacheState) (key : String)
    (r : VerificationResult) :
    cacheLookup ((key, r) :: st) key = some r := by
  simp [cacheLookup, List.find?]

/-! ### Claim C5 -/

/-- C5: on a cache miss, `verify_college_claim` stamps the result with the
current time; a second identical call strictly within the 24-hour TTL returns
that cached result unchanged (same record, timestamp of the first call) and
leaves the cache untouched; once 24 hours have passed, the next call
recomputes the verification and stamps a fresh timestamp. -/
theorem verification_cache_ttl (claim name ctype : String) (now1 now2 : ℚ)
    (st : CacheState)
    (hmiss : cacheLookup st (cacheKey claim name ctype) = none) :
    ((verifyCollegeClaim now1 st claim name ctype).1.verification_date = now1) ∧
    (now2 - now1 < 86400 →
      verifyCollegeClaim now2 (verifyCollegeClaim now1 st claim name ctype).2
          claim name ctype =
        ((verifyCollegeClaim now1 st claim name ctype).1,
         (verifyCollegeClaim now1 st claim name ctype).2)) ∧
    (86400 ≤ now2 - now1 →
      (verifyCollegeClaim now2 (verifyCollegeClaim now1 st claim name ctype).2
          claim name ctype).1 = performVerification now2 claim name ctype ∧
      (verifyCollegeClaim now2 (verifyCollegeClaim now1 st claim name ctype).2
          claim name ctype).1.verification_date = now2) := by
  have h1 := verifyCollegeClaim_miss now1 st claim name ctype hmiss
  have hlook := cacheLookup_insert_self st (cacheKey claim name ctype)
    (performVerification now1 claim name ctype)
  refine ⟨?_, ?_, ?_⟩
  · rw [h1]
    exact performVerification_date now1 claim name ctype
  · intro hlt
    have hvalid : isCacheValid now2 (performVerification now1 claim name ctype) = true := by
      unfold isCacheValid
      rw [performVerification_date]
      exact decide_eq_true hlt
    rw [h1]
    simp [verifyCollegeClaim, hlook, hvalid]
  · intro hge
    have hvalid : isCacheValid now2 (performVerification now1 claim name ctype) = false := by
      unfold isCacheValid
      rw [performVerification_date]
      exact decide_eq_false (not_lt.mpr hge)
    have hrun : verifyCollegeClaim now2
        ((cacheKey claim name ctype, performVerification now1 claim name ctype) :: st)
        claim name ctype =
        (performVerification now2 claim name ctype,
         (cacheKey claim name ctype, performVerification now2 claim name ctype) ::
           (cacheKey claim name ctype, performVerification now1 claim name ctype) :: st) := by
      unfold verifyCollegeClaim
      rw [hlook]
      simp [hvalid]
    constructor
    · rw [h1, hrun]
    · rw [h1, hrun]
      exact performVerification_date now2 claim name ctype

/-- Witness for C5: a concrete claim verified at time 0, re-queried at 50000 s
(within TTL: same record) and at 100000 s (expired: fresh timestamp). -/
theorem verification_cache_ttl_witness :
    ((verifyCollegeClaim 0 ([] : CacheState) "claim X" "College Y" "general").1.verification_date = 0) ∧
    (verifyCollegeClaim 50000 (verifyCollegeClaim 0 ([] : CacheState) "claim X" "College Y" "general").2
        "claim X" "College Y" "general" =
      ((verifyCollegeClaim 0 ([] : CacheState) "claim X" "College Y" "general").1,
       (verifyCollegeClaim 0 ([] : CacheState) "claim X" "College Y" "general").2)) ∧
    ((verifyCollegeClaim 100000 (verifyCollegeClaim 0 ([] : CacheState) "claim X" "College Y" "general").2
        "claim X" "College Y" "general").1.verification_date = 100000) := by
  have h1 := verification_cache_ttl "claim X" "College Y" "general" 0 50000 [] rfl
  have h2 := verification_cache_ttl "claim X" "College Y" "general" 0 100000 [] rfl
  exact ⟨h1.1, h1.2.1 (by norm_num), (h2.2.2 (by norm_num)).2⟩

/-! ### Claim C10 -/

/-- C10: for any subject and any accreditation claim containing none of the
tokens NAAC, NBA, AICTE, UGC, `verify_college_claim` (on a cache miss) returns
verified with confidence 0.95: zero claimed tokens are vacuously all present
in the reference list, whether or not the subject appears in the tables. -/
theorem accreditation_vacuous_verified (claim name : String) (now : ℚ)
    (st : CacheState)
    (h1 : strContains claim "NAAC" = false) (h2 : strContains claim "NBA" = false)
    (h3 : strContains claim "AICTE" = false) (h4 : strContains claim "UGC" = false)
    (hmiss : cacheLookup st (cacheKey claim name "accreditation") = none) :
    (verifyCollegeClaim now st claim name "accreditation").1.verified = true ∧
    (verifyCollegeClaim now st claim name "accreditation").1.confidence = 19/20 := by
  have hacc : claimedAccreditations claim = [] := by
    simp [claimedAccreditations, h1, h2, h3, h4]
  have hver : (verifyAccreditationClaim now claim name).verified = true := by
    simp [verifyAccreditationClaim, hacc]
  have hconf : (verifyAccreditationClaim now claim name).confidence = 19/20 := by
    simp [verifyAccreditationClaim, hacc]
  have hvc := verifyCollegeClaim_miss now st claim name "accreditation" hmiss
  rw [hvc, performVerification_accreditation, if_pos hver]
  exact ⟨hver, hconf⟩

/-- Witness for C10: a claim naming only an accreditation outside the fixed
vocabulary, for a subject absent from every reference table. -/
theorem accreditation_vacuous_verified_witness :
    (verifyCollegeClaim 7 ([] : CacheState) "Accredited by: ISO 9001"
      "Unknown Institute" "accreditation").1.verified = true ∧
    (verifyCollegeClaim 7 ([] : CacheState) "Accredited by: ISO 9001"
      "Unknown Institute" "accreditation").1.confidence = 19/20 :=
  accreditation_vacuous_verified "Accredited by: ISO 9001" "Unknown Institute" 7 []
    (by decide) (by decide) (by decide) (by decide) rfl

/-! ### Claim C2 -/

/-- Whether a placement claim is corroborated: the claim text yields a
percentage, the subject has a reference entry and the difference is within
5.0 percentage points. -/
def placementWithinTolerance (claim name : String) : Bool :=
  match fetchNirfData name, extractPercentage claim with
  | some e, some p => decide (|p - e.placement| ≤ 5)
  | _, _ => false

theorem verifyPlacementClaim_notFound (now : ℚ) (claim name : String)
    (htol : placementWithinTolerance claim name = false) :
    verifyPlacementClaim now claim name = placementNotFound now claim := by
  unfold placementWithinTolerance at htol
  unfold verifyPlacementClaim
  cases hf : fetchNirfData name with
  | none => rfl
  | some e =>
    cases hp : extractPercentage claim with
    | none => rfl
    | some p =>
      rw [hf, hp] at htol
      dsimp only at htol ⊢
      rw [if_neg (of_decide_eq_false htol)]

theorem verifyPlacementClaim_found (now : ℚ) (claim name : String)
    (htol : placementWithinTolerance claim name = true) :
    (verifyPlacementClaim now claim name).verified = true ∧
    (verifyPlacementClaim now claim name).confidence = 9/10 := by
  unfold placementWithinTolerance at htol
  unfold verifyPlacementClaim
  cases hf : fetchNirfData name with
  | none =>
    rw [hf] at htol
    exact Bool.noConfusion htol
  | some e =>
    cases hp : extractPercentage claim with
    | none =>
      rw [hf, hp] at htol
      dsimp only at htol
      exact Bool.noConfusion htol
    | some p =>
      rw [hf, hp] at htol
      dsimp only at htol ⊢
      rw [if_pos (of_decide_eq_true htol)]
      exact ⟨rfl, rfl⟩

/-- C2 amended: on a cache miss, a placement claim within 5.0 points of the
reference is returned verified with confidence 0.9; in every other case
(difference above 5.0, reference missing, or no extractable percentage) the
inner `_verify_placement_claim` does produce verified=false with confidence
0.3, but `_perform_verification` discards the unverified attempt and
`verify_college_claim` returns verified=false with confidence 0.0 — not
0.3. -/
theorem placement_claim_behaviour (claim name : String) (now : ℚ) (st : CacheState)
    (hmiss : cacheLookup st (cacheKey claim name "placement") = none) :
    (placementWithinTolerance claim name = true →
      (verifyCollegeClaim now st claim name "placement").1.verified = true ∧
      (verifyCollegeClaim now st claim name "placement").1.confidence = 9/10) ∧
    (placementWithinTolerance claim name = false →
      verifyPlacementClaim now claim name = placementNotFound now claim ∧
      (verifyPlacementClaim now claim name).confidence = 3/10 ∧
      (verifyCollegeClaim now st claim name "placement").1 = unverifiedResult now claim ∧
      (verifyCollegeClaim now st claim name "placement").1.confidence = 0) := by
  have hvc := verifyCollegeClaim_miss now st claim name "placement" hmiss
  constructor
  · intro htol
    obtain ⟨hver, hconf⟩ := verifyPlacementClaim_found now claim name htol
    rw [hvc, performVerification_placement, if_pos hver]
    exact ⟨hver, hconf⟩
  · intro htol
    have hnf := verifyPlacementClaim_notFound now claim name htol
    have hfail : (verifyCollegeClaim now st claim name "placement").1 =
        unverifiedResult now claim := by
      rw [hvc]
      show performVerification now claim name "placement" = unverifiedResult now claim
      rw [performVerification_placement, hnf]
      rfl
    exact ⟨hnf, by rw [hnf]; rfl, hfail, by rw [hfail]; rfl⟩

/-- C2 counterexample: the spec scenario — claim "Placement percentage: 50%"
for a subject whose reference placement is 95.0 (difference 45 > 5).  The
claim says the returned result has confidence 0.3; the pipeline actually
returns confidence 0.0 (the 0.3 lives only inside `_verify_placement_claim`,
which `_perform_verification` discards). -/
theorem placement_missing_confidence_is_zero :
    (verifyCollegeClaim 0 ([] : CacheState) "Placement percentage: 50%"
      "Indian Institute of Science Bangalore" "placement").1.confidence = 0 ∧
    ((0 : ℚ) ≠ 3/10) := by
  constructor
  · have htol : placementWithinTolerance "Placement percentage: 50%"
        "Indian Institute of Science Bangalore" = false := by
      have hs : pctSearch ("Placement percentage: 50%").data = some (50, 0, 0) := by
        decide
      have hp : extractPercentage "Placement percentage: 50%" =
          some (((50 : Nat) : ℚ) + ((0 : Nat) : ℚ) / 10 ^ (0 : Nat)) := by
        rw [extractPercentage, hs]
        rfl
      rw [placementWithinTolerance,
        show fetchNirfData "Indian Institute of Science Bangalore" =
          some { ranking := 1, placement := 95, accreditation := ["NAAC A++", "NBA"] }
          from rfl, hp]
      dsimp only
      exact decide_eq_false (by norm_num)
    have hnf := verifyPlacementClaim_notFound 0 "Placement percentage: 50%"
      "Indian Institute of Science Bangalore" htol
    have hvc := verifyCollegeClaim_miss 0 [] "Placement percentage: 50%"
      "Indian Institute of Science Bangalore" "placement" rfl
    rw [hvc]
    show (performVerification 0 "Placement percentage: 50%"
      "Indian Institute of Science Bangalore" "placement").confidence = 0
    rw [performVerification_placement, hnf]
    rfl
  · norm_num

/-- Witness for C2 amended, exercising both branches: the in-tolerance spec
scenario (claim 98.3% against reference 98.3) and the out-of-tolerance one
(claim 50% against reference 95.0). -/
theorem placement_claim_behaviour_witness :
    ((verifyCollegeClaim 0 ([] : CacheState) "Placement percentage: 98.3%"
      "Indian Institute of Technology Delhi" "placement").1.verified = true ∧
     (verifyCollegeClaim 0 ([] : CacheState) "Placement percentage: 98.3%"
      "Indian Institute of Technology Delhi" "placement").1.confidence = 9/10) ∧
    ((verifyCollegeClaim 0 ([] : CacheState) "Placement percentage: 50%"
      "Indian Institute of Science Bangalore" "placement").1.confidence = 0) := by
  constructor
  · refine (placement_claim_behaviour "Placement percentage: 98.3%"
      "Indian Institute of Technology Delhi" 0 [] rfl).1 ?_
    have hs : pctSearch ("Placement percentage: 98.3%").data = some (98, 3, 1) := by
      decide
    have hp : extractPercentage "Placement percentage: 98.3%" =
        some (((98 : Nat) : ℚ) + ((3 : Nat) : ℚ) / 10 ^ (1 : Nat)) := by
      rw [extractPercentage, hs]
      rfl
    rw [placementWithinTolerance,
      show fetchNirfData "Indian Institute of Technology Delhi" =
        some { ranking := 2, placement := 983/10, accreditation := ["NAAC A++", "NBA"] }
        from rfl, hp]
    dsimp only
    exact decide_eq_true (by norm_num)
  · have htol : placementWithinTolerance "Placement percentage: 50%"
        "Indian Institute of Science Bangalore" = false := by
      have hs : pctSearch ("Placement percentage: 50%").data = some (50, 0, 0) := by
        decide
      have hp : extractPercentage "Placement percentage: 50%" =
          some (((50 : Nat) : ℚ) + ((0 : Nat) : ℚ) / 10 ^ (0 : Nat)) := by
        rw [extractPercentage, hs]
        rfl
      rw [placementWithinTolerance,
        show fetchNirfData "Indian Institute of Science Bangalore" =
          some { ranking := 1, placement := 95, accreditation := ["NAAC A++", "NBA"] }
          from rfl, hp]
      dsimp only
      exact decide_eq_false (by norm_num)
    have h := ((placement_claim_behaviour "Placement percentage: 50%"
      "Indian Institute of Science Bangalore" 0 [] rfl).2 htol).2.2.2
    exact h

/-! ### Claim C3 -/

/-- A retrieved document whose fee range (80000-80000) cannot overlap a tiny
budget. -/
def doc80k : Document where
  page_content := ""
  metadata := { college_id := "c1", college_name := "Test College"
                college_type := "government", location := "X", district := "X"
                state := "X", streams := ["engineering"], established_year := 2000
                accreditation := [], avg_rating := 0, placement_percentage := 0
                avg_salary := 0, min_fees := 80000, max_fees := 80000
                source := "college_database", last_updated := "", source_links := [] }

/-- A request whose budget (1, 2) excludes every retrieved document. -/
def reqC3 : RecommendationRequest where
  student_profile :=
    { profileStd with budget_range := (1, 2) }
  preferences := []
  max_recommendations := 3
  include_verification := false

/-- C3 counterexample: the budget post-filter removes the only retrieved
candidate, yet `get_recommendations` returns three recommendations — the
demo-mode generation step ignores the (empty) candidate list and emits its
fixed colleges, so the pipeline does not return the empty list. -/
theorem budget_filter_empty_still_returns :
    budgetFilter reqC3.student_profile.budget_range [doc80k] = [] ∧
    (resultList (getRecommendations reqC3 [doc80k] 0 [])).length = 3 := by
  constructor
  · rfl
  · rfl

/-- C3 amended: when the budget post-filter leaves zero candidates the
generation step is still invoked on the empty document list; in demo mode it
returns its three fixed recommendations, so the pipeline returns
`min max_recommendations 3` of them rather than the empty list (whenever the
reweighting step does not itself raise). -/
theorem generation_ignores_empty_candidates (req : RecommendationRequest)
    (docs : List Document) (now : ℚ) (st : CacheState)
    (_hempty : budgetFilter req.student_profile.budget_range docs = [])
    (hpref : req.preferences = [] ∨ totalWeight req.preferences ≠ 0) :
    (resultList (getRecommendations req docs now st)).length =
      min req.max_recommendations 3 := by
  cases hp : req.preferences with
  | nil =>
    simp only [getRecommendations, hp]
    cases hv : req.include_verification <;>
      simp [resultList, hv, List.length_take, verifyRecommendations_length,
        generateRecommendations, mockResponse]
  | cons p ps =>
    rcases hpref with h0 | h0
    · rw [hp] at h0
      cases h0
    · simp only [getRecommendations, hp]
      rw [applyPreferences, if_neg (hp ▸ h0)]
      cases hv : req.include_verification <;>
        simp [resultList, hv, List.length_take, verifyRecommendations_length,
          length_assignRanksFrom, pySortDesc_length, generateRecommendations,
          mockResponse]

/-- Witness for C3 amended at the concrete emptied-out retrieval. -/
theorem generation_ignores_empty_candidates_witness :
    (resultList (getRecommendations reqC3 [doc80k] 0 [])).length = min 3 3 :=
  generation_ignores_empty_candidates reqC3 [doc80k] 0 [] rfl (Or.inl rfl)

/-! ### Claim C1 -/

/-- Request with no preference overrides. -/
def reqNoPrefs : RecommendationRequest where
  student_profile := profileStd
  preferences := []
  max_recommendations := 3
  include_verification := false

/-- Request overriding one factor weight. -/
def reqHalf : RecommendationRequest where
  student_profile := profileStd
  preferences := [("official_quality", 1/2)]
  max_recommendations := 3
  include_verification := false

/-- C1 counterexample: with no preference overrides `_apply_preferences` is
never called, so every returned composite stays at the generation step's own
draft value 7.8, while the weighted sum of the returned sub-scores
(8, 7.5, 8.5, 7) under the normalized default weights is 7.85 — the claimed
invariant fails on the default-weights branch. -/
theorem composite_not_weighted_sum_without_preferences :
    ((resultList (getRecommendations reqNoPrefs [] 0 [])).map
        (fun r => (r.score.official_quality, r.score.mentor_trust,
          r.score.relevance, r.score.proximity, r.score.composite_score))) =
      [(8, 15/2, 17/2, 7, 39/5), (8, 15/2, 17/2, 7, 39/5),
       (8, 15/2, 17/2, 7, 39/5)] ∧
    ¬ ((39 : ℚ)/5 =
        8 * normalizedWeight [] "official_quality" +
        (15/2) * normalizedWeight [] "mentor_trust" +
        (17/2) * normalizedWeight [] "relevance" +
        7 * normalizedWeight [] "proximity") := by
  constructor
  · rfl
  · simp [normalizedWeight, totalWeight, mergeWeights, dictGet, defaultWeights]
    norm_num

/-- C1 amended: when the request supplies a non-empty preference map (and the
run succeeds), every returned recommendation's composite equals the weighted
sum of its four sub-scores under the merged-and-normalized weight vector;
with no preferences the composite is the generation step's value unchanged
(see the counterexample). -/
theorem composite_weighted_sum_with_preferences
    (req : RecommendationRequest) (docs : List Document) (now : ℚ)
    (st : CacheState) (recs : List CollegeRecommendation) (st2 : CacheState)
    (hne : req.preferences ≠ [])
    (h : getRecommendations req docs now st = .ok (recs, st2)) :
    ∀ r ∈ recs, scoreOK req.preferences r.score := by
  cases hp : req.preferences with
  | nil => exact absurd hp hne
  | cons p ps =>
    simp only [getRecommendations, hp] at h
    cases happ : applyPreferences
        (generateRecommendations req.student_profile
          (budgetFilter req.student_profile.budget_range docs) (p :: ps))
        (p :: ps) with
    | error e =>
      rw [happ] at h
      cases h
    | ok out =>
      rw [happ] at h
      dsimp only at h
      injection h with hpair
      have hrecs : recs = List.take req.max_recommendations
          (if req.include_verification then verifyRecommendations now st out
           else (out, st)).1 := (congrArg Prod.fst hpair).symm
      intro r hr
      rw [hrecs] at hr
      have hr2 : r ∈ (if req.include_verification then
          verifyRecommendations now st out else (out, st)).1 :=
        List.mem_of_mem_take hr
      have hscore : ∃ a ∈ out, r.score = a.score := by
        cases hv : req.include_verification
        · rw [hv] at hr2
          exact ⟨r, hr2, rfl⟩
        · rw [hv] at hr2
          obtain ⟨a, ha, hfr⟩ :=
            forall2_mem_right (verifyRecommendations_forall2 now st out) hr2
          exact ⟨a, ha, hfr.2.2.1⟩
      obtain ⟨a, ha, hras⟩ := hscore
      rw [(applyPreferences_ok happ).2] at ha
      obtain ⟨b, hb, habs⟩ := mem_assignRanksFrom_score ha
      have hbres : b ∈ (generateRecommendations req.student_profile
          (budgetFilter req.student_profile.budget_range docs) (p :: ps)).map
          (rescoreRecommendation (p :: ps)) :=
        (pySortDesc_perm _).mem_iff.mp hb
      obtain ⟨g, _, hgb⟩ := List.mem_map.mp hbres
      have : scoreOK (p :: ps) b.score := by
        rw [← hgb]
        exact rescore_scoreOK (p :: ps) g
      rw [hras, habs]
      exact this

/-- Witness for C1 amended: a run with one overridden weight returns three
recommendations, each satisfying the weighted-sum invariant. -/
theorem composite_weighted_sum_with_preferences_witness :
    ((resultList (getRecommendations reqHalf [] 0 [])).length = 3) ∧
    ∀ r ∈ resultList (getRecommendations reqHalf [] 0 []),
      scoreOK reqHalf.preferences r.score := by
  have hok : getRecommendations reqHalf [] 0 [] =
      .ok ((assignRanksFrom 1 (pySortDesc
        ((generateRecommendations reqHalf.student_profile
          (budgetFilter reqHalf.student_profile.budget_range [])
          [("official_quality", 1/2)]).map
          (rescoreRecommendation [("official_quality", 1/2)])))).take 3, []) := by
    simp only [getRecommendations, reqHalf]
    rw [applyPreferences,
      if_neg (by simp [totalWeight, mergeWeights, dictGet, defaultWeights]; norm_num)]
    rfl
  constructor
  · rw [hok]
    simp [resultList, List.length_take, length_assignRanksFrom, pySortDesc_length,
      generateRecommendations, mockResponse]
  · intro r hr
    have hr2 := hr
    rw [hok] at hr2
    exact composite_weighted_sum_with_preferences reqHalf [] 0 [] _ _
      (by simp [reqHalf]) hok r (by simpa [resultList] using hr2)
